import Mathlib

/-!
Shallow embedding of the theme-resolution script `src/assets/js/main.js`
(the IIFE installing the XSoft theme switcher).

Modelling conventions:
* Theme values are `String`s, exactly as in the JavaScript source.
* The browser-visible state touched by the script is collected in `XState`:
  the localStorage slot under the key `xsoft-theme`, whether localStorage is
  usable (privacy mode makes every access throw, which the source catches),
  the `matchMedia('(prefers-color-scheme: dark)')` result and whether that
  capability exists at all, the `data-theme` attribute and class list of
  `document.documentElement`, the list of `xsoft:themechange` events
  dispatched so far, and a counter of `withTransition` activations.
* Timers are collapsed: `withTransition` runs its callback synchronously and
  records that a transition window was opened; the cosmetic
  `theme--transition` class is added and later removed by the timer, so its
  net effect on the class list is nil.
* Exceptions thrown to the caller (`setTheme` on an invalid mode) are
  modelled with `Except`; the world state is returned alongside, since in the
  browser the DOM and storage survive a thrown exception.
* The UI-button wiring, the `window.XSoftTheme` property and the download
  logger touch no state modelled here and are omitted.
-/

namespace XSoft

/-- Configuration constants from the top of the source file. -/
def STORAGE_KEY : String := "xsoft-theme"

def VALID_LIGHT : String := "light"

def VALID_DARK : String := "dark"

def VALID_SYSTEM : String := "system"

def DEFAULT : String := VALID_SYSTEM

/-- The `detail` object of a dispatched `xsoft:themechange` event.
`applyThemeToDOM` emits `\x7b themeRequested, themeApplied \x7d`;
`setTheme` additionally emits `\x7b themeRequested, saved \x7d`.
Fields absent from a given detail object are `none`. -/
structure ThemeChangeEvent where
  themeRequested : String
  themeApplied : Option String
  saved : Option Bool
  deriving Repr, DecidableEq

/-- The browser-visible state the script reads and writes. -/
structure XState where
  /-- value stored under `xsoft-theme`, `none` if the key is absent -/
  storage : Option String
  /-- `false` models privacy mode: every localStorage access throws -/
  storageAvailable : Bool
  /-- `matchMedia('(prefers-color-scheme: dark)').matches` -/
  sysDark : Bool
  /-- `false` models a platform where `window.matchMedia` throws -/
  mediaAvailable : Bool
  /-- the `data-theme` attribute on `document.documentElement` -/
  docAttr : Option String
  /-- class list of `document.documentElement` -/
  classList : List String
  /-- `xsoft:themechange` events dispatched so far, oldest first -/
  events : List ThemeChangeEvent
  /-- number of `withTransition` activations so far -/
  transitionCount : Nat
  deriving Repr, DecidableEq

/-- `safeLocalStorageGet`: returns the stored value or `null`; a throwing
localStorage (privacy mode) is caught and yields `null`. -/
def safeLocalStorageGet (s : XState) : Option String :=
  if s.storageAvailable then s.storage else none

/-- `safeLocalStorageSet`: writes and reports `true`, or catches the
storage failure and reports `false` with the store untouched. -/
def safeLocalStorageSet (s : XState) (value : String) : XState × Bool :=
  if s.storageAvailable then ({ s with storage := some value }, true)
  else (s, false)

/-- `isValidTheme(v)`: membership in the three-value enumeration. -/
def isValidTheme (v : String) : Bool :=
  v == VALID_LIGHT || v == VALID_DARK || v == VALID_SYSTEM

/-- `emitThemeChange`: dispatches an `xsoft:themechange` event. -/
def emitThemeChange (s : XState) (detail : ThemeChangeEvent) : XState :=
  { s with events := s.events ++ [detail] }

/-- `getSystemPref`: `dark` when the media query matches, `light` otherwise;
a throwing `matchMedia` is caught and yields the conservative `light`. -/
def getSystemPref (s : XState) : String :=
  if s.mediaAvailable then (if s.sysDark then VALID_DARK else VALID_LIGHT)
  else VALID_LIGHT

/-- `applyThemeToDOM(theme)`: resolves `system` against the OS preference,
writes the `data-theme` attribute, removes the legacy `light`/`dark`
classes, and emits `\x7b themeRequested, themeApplied \x7d`. -/
def applyThemeToDOM (s : XState) (theme : String) : XState :=
  let final := if theme == VALID_SYSTEM then getSystemPref s else theme
  let s1 := { s with
    docAttr := some final,
    classList := s.classList.filter (fun c => c ≠ "light" ∧ c ≠ "dark") }
  emitThemeChange s1 ⟨theme, some final, none⟩

/-- `withTransition(fn)`: opens a cosmetic transition window and runs `fn`.
The `theme--transition` class is added and removed again by the timer, so
only the activation count is recorded. -/
def withTransition (s : XState) (fn : XState → XState) : XState :=
  fn { s with transitionCount := s.transitionCount + 1 }

/-- `readStored()`: the persisted value if present, non-empty and valid,
otherwise `null`. -/
def readStored (s : XState) : Option String :=
  match safeLocalStorageGet s with
  | none => none
  | some v =>
    if v == "" then none
    else if isValidTheme v then some v else none

/-- The `options` bag accepted by `setTheme`. -/
structure SetThemeOptions where
  transition : Bool := false
  noEmit : Bool := false
  deriving Repr, DecidableEq

/-- `setTheme(theme, options)`: throws on an invalid mode, otherwise
persists the preference (best effort), applies it to the DOM (with a
transition when requested) and, unless `noEmit`, emits
`\x7b themeRequested, saved \x7d`. The resulting world state is returned
alongside the thrown-or-returned outcome. -/
def setTheme (s : XState) (theme : String) (options : SetThemeOptions) :
    XState × Except String Bool :=
  if ¬ isValidTheme theme then
    (s, Except.error ("Invalid theme: " ++ theme))
  else
    let p := safeLocalStorageSet s theme
    let savedOK := p.2
    let s2 :=
      if options.transition then
        withTransition p.1 (fun t => applyThemeToDOM t theme)
      else applyThemeToDOM p.1 theme
    let s3 :=
      if options.noEmit ≠ true then
        emitThemeChange s2 ⟨theme, none, some savedOK⟩
      else s2
    (s3, Except.ok true)

/-- `getEffectiveTheme()`: the `data-theme` attribute when it is `light` or
`dark`, otherwise the OS preference. -/
def getEffectiveTheme (s : XState) : String :=
  match s.docAttr with
  | some attr =>
    if attr == VALID_LIGHT || attr == VALID_DARK then attr
    else getSystemPref s
  | none => getSystemPref s

/-- `toggleTheme()`: reads the effective theme and sets the opposite, with a
transition. The source also reads the stored preference into a variable it
never uses afterwards. -/
def toggleTheme (s : XState) : XState × Except String Bool :=
  let _current := (readStored s).getD DEFAULT
  let effective := getEffectiveTheme s
  let target := if effective == VALID_DARK then VALID_LIGHT else VALID_DARK
  setTheme s target { transition := true }

/-- The OS-preference-change callback that `init` subscribes when the
resolved mode is `system`: when the stored preference is still `system` or
absent, re-apply `system` with a transition. -/
def systemPrefChangeCallback (s : XState) : XState :=
  let curStored := readStored s
  if curStored == some VALID_SYSTEM || curStored == none then
    withTransition s (fun t => applyThemeToDOM t VALID_SYSTEM)
  else s

/-- An OS-level preference flip delivered to the subscribed callback: the
media query now reports `newDark`, then the callback runs. -/
def osPreferenceChange (s : XState) (newDark : Bool) : XState :=
  systemPrefChangeCallback { s with sysDark := newDark }

/-- Result of `init`: the state after the initial application, and whether
the OS-preference watch was subscribed. -/
structure InitResult where
  state : XState
  watching : Bool
  deriving Repr, DecidableEq

/-- The `var chosen = stored || (isValidTheme(initialAttr) ? initialAttr :
null) || DEFAULT;` line of `init`. -/
def initChosen (s : XState) : String :=
  match readStored s with
  | some v => v
  | none =>
    match s.docAttr with
    | some a => if isValidTheme a then a else DEFAULT
    | none => DEFAULT

/-- `init()`: resolve the mode, apply it without a transition, and subscribe
to OS changes when `system` is in play. Button wiring and the
`window.XSoftTheme` property touch no modelled state. -/
def init (s : XState) : InitResult :=
  let initialAttr := s.docAttr
  let stored := readStored s
  let chosen := initChosen s
  let s1 := applyThemeToDOM s chosen
  let watching :=
    chosen == VALID_SYSTEM || stored == some VALID_SYSTEM ||
      initialAttr == some VALID_SYSTEM
  ⟨s1, watching⟩

/-- Modelled from the spec: the resolution priority the spec states for
`initialize()` — the Stored Preference if present and valid, else a valid
preference hint already in the root element's theme attribute, else the
OS-level dark-mode signal, else the fixed default `system`. The final
default branch is unreachable here because the OS-level signal always
reports `light` or `dark` (`light` when the capability is absent). Stated
from the spec's words, to be compared with `init`. -/
def specInitResolution (s : XState) : String :=
  match readStored s with
  | some v => v
  | none =>
    match s.docAttr with
    | some a => if isValidTheme a then a else getSystemPref s
    | none => getSystemPref s

/-- The document attribute is a valid EffectiveTheme: `light` or `dark`,
never `system`. -/
def effectiveAttr (s : XState) : Prop :=
  s.docAttr = some "light" ∨ s.docAttr = some "dark"

instance (s : XState) : Decidable (effectiveAttr s) := by
  unfold effectiveAttr; infer_instance

/-- The root element carries neither of the legacy class names. -/
def noLegacyClass (s : XState) : Prop :=
  "light" ∉ s.classList ∧ "dark" ∉ s.classList

instance (s : XState) : Decidable (noLegacyClass s) := by
  unfold noLegacyClass; infer_instance

/-- A concrete page state used to instantiate theorems: fresh storage, OS in
light mode, no `data-theme` attribute yet, one unrelated class present. -/
def demoState : XState :=
  { storage := none, storageAvailable := true, sysDark := false,
    mediaAvailable := true, docAttr := none, classList := ["site", "light"],
    events := [], transitionCount := 0 }

/-- A concrete page state whose stored preference is `system` and whose
root element already shows `light`. -/
def systemStoredState : XState :=
  { storage := some "system", storageAvailable := true, sysDark := false,
    mediaAvailable := true, docAttr := some "light", classList := [],
    events := [], transitionCount := 0 }

/-- A concrete page state in privacy mode: storage access throws and the
`matchMedia` capability is absent. -/
def privateModeState : XState :=
  { storage := none, storageAvailable := false, sysDark := false,
    mediaAvailable := false, docAttr := none, classList := [],
    events := [], transitionCount := 0 }

/-- The effective value `applyThemeToDOM` resolves and writes. -/
def resolveEffective (s : XState) (theme : String) : String :=
  if theme == VALID_SYSTEM then getSystemPref s else theme

section Lemmas

/-- `isValidTheme` recognises exactly the three enumerated values. -/
theorem isValidTheme_iff (v : String) :
    isValidTheme v = true ↔ v = "light" ∨ v = "dark" ∨ v = "system" := by
  simp [isValidTheme, VALID_LIGHT, VALID_DARK, VALID_SYSTEM, or_assoc]

/-- `readStored` only ever returns a valid theme. -/
theorem readStored_valid (s : XState) (v : String)
    (h : readStored s = some v) : isValidTheme v = true := by
  unfold readStored at h
  cases hg : safeLocalStorageGet s with
  | none => simp [hg] at h
  | some w =>
    rw [hg] at h
    by_cases he : w == ""
    · simp [he] at h
    · by_cases hv : isValidTheme w
      · simp [he, hv] at h; simpa [h] using hv
      · simp [he, hv] at h

/-- The mode chosen by `init` is always valid. -/
theorem initChosen_valid (s : XState) : isValidTheme (initChosen s) = true := by
  unfold initChosen
  cases hr : readStored s with
  | some v => exact readStored_valid s v hr
  | none =>
    cases ha : s.docAttr with
    | none => decide
    | some a =>
      show isValidTheme (if isValidTheme a = true then a else DEFAULT) = true
      by_cases hv : isValidTheme a = true
      · rwa [if_pos hv]
      · rw [if_neg hv]; decide

/-- The OS-level signal reports `light` or `dark`. -/
theorem getSystemPref_mem (s : XState) :
    getSystemPref s = "light" ∨ getSystemPref s = "dark" := by
  unfold getSystemPref
  split_ifs <;> simp [VALID_LIGHT, VALID_DARK]

/-- Field-by-field effect of `applyThemeToDOM`. -/
theorem applyThemeToDOM_state (s : XState) (t : String) :
    applyThemeToDOM s t =
      { s with
        docAttr := some (resolveEffective s t),
        classList := s.classList.filter (fun c => c ≠ "light" ∧ c ≠ "dark"),
        events := s.events ++ [⟨t, some (resolveEffective s t), none⟩] } := by
  simp [applyThemeToDOM, emitThemeChange, resolveEffective]

/-- A valid theme resolves to `light` or `dark`. -/
theorem resolveEffective_mem (s : XState) (t : String)
    (ht : isValidTheme t = true) :
    resolveEffective s t = "light" ∨ resolveEffective s t = "dark" := by
  rcases (isValidTheme_iff t).1 ht with h | h | h <;> subst h
  · exact Or.inl (by simp [resolveEffective, VALID_SYSTEM])
  · exact Or.inr (by simp [resolveEffective, VALID_SYSTEM])
  · simpa [resolveEffective, VALID_SYSTEM] using getSystemPref_mem s

/-- Full effect of `setTheme` on a valid mode, all options covered. -/
theorem setTheme_valid (s : XState) (m : String) (o : SetThemeOptions)
    (hm : isValidTheme m = true) :
    setTheme s m o =
      ({ storage := if s.storageAvailable then some m else s.storage,
         storageAvailable := s.storageAvailable,
         sysDark := s.sysDark,
         mediaAvailable := s.mediaAvailable,
         docAttr := some (resolveEffective s m),
         classList := s.classList.filter (fun c => c ≠ "light" ∧ c ≠ "dark"),
         events := s.events ++ [⟨m, some (resolveEffective s m), none⟩] ++
           (if o.noEmit then [] else [⟨m, none, some s.storageAvailable⟩]),
         transitionCount :=
           if o.transition then s.transitionCount + 1 else s.transitionCount },
       Except.ok true) := by
  obtain ⟨ot, one⟩ := o
  cases hsa : s.storageAvailable <;> cases ot <;> cases one <;>
    simp [setTheme, hm, safeLocalStorageSet, withTransition, applyThemeToDOM,
      emitThemeChange, resolveEffective, getSystemPref, hsa, List.append_assoc]

/-- `setTheme` on an invalid mode throws and leaves the world untouched. -/
theorem setTheme_invalid_eq (s : XState) (v : String) (o : SetThemeOptions)
    (hv : isValidTheme v = false) :
    setTheme s v o = (s, Except.error ("Invalid theme: " ++ v)) := by
  unfold setTheme
  rw [if_pos (by simp [hv])]

/-- Closed form of `getEffectiveTheme`. -/
theorem getEffectiveTheme_eq (s : XState) :
    getEffectiveTheme s =
      if s.docAttr = some "light" then "light"
      else if s.docAttr = some "dark" then "dark"
      else getSystemPref s := by
  unfold getEffectiveTheme
  cases hd : s.docAttr with
  | none => simp
  | some attr =>
    by_cases hl : attr = "light"
    · subst hl; simp [VALID_LIGHT, VALID_DARK]
    · by_cases hk : attr = "dark"
      · subst hk; simp [VALID_LIGHT, VALID_DARK]
      · simp [VALID_LIGHT, VALID_DARK, hl, hk]

/-- The effective theme is always `light` or `dark`. -/
theorem getEffectiveTheme_mem (s : XState) :
    getEffectiveTheme s = "light" ∨ getEffectiveTheme s = "dark" := by
  rw [getEffectiveTheme_eq]
  split_ifs with h1 h2
  · exact Or.inl rfl
  · exact Or.inr rfl
  · exact getSystemPref_mem s

/-- `toggleTheme` is `setTheme` on the opposite of the effective theme, with
a transition. -/
theorem toggleTheme_eq (s : XState) :
    toggleTheme s =
      setTheme s (if getEffectiveTheme s = "dark" then "light" else "dark")
        { transition := true } := by
  rcases getEffectiveTheme_mem s with h | h <;>
    simp [toggleTheme, h, VALID_DARK, VALID_LIGHT]

/-- The mode `toggleTheme` targets is always valid. -/
theorem toggleTarget_valid (s : XState) :
    isValidTheme (if getEffectiveTheme s = "dark" then "light" else "dark") =
      true := by
  rcases getEffectiveTheme_mem s with h | h <;> rw [h] <;> decide

/-- Applying any valid mode leaves a valid EffectiveTheme in the attribute. -/
theorem applyThemeToDOM_effectiveAttr (s : XState) (t : String)
    (ht : isValidTheme t = true) : effectiveAttr (applyThemeToDOM s t) := by
  rw [applyThemeToDOM_state]
  unfold effectiveAttr
  rcases resolveEffective_mem s t ht with h | h
  · exact Or.inl (by simp [h])
  · exact Or.inr (by simp [h])

/-- Applying any mode strips the legacy class names. -/
theorem applyThemeToDOM_noLegacy (s : XState) (t : String) :
    noLegacyClass (applyThemeToDOM s t) := by
  rw [applyThemeToDOM_state]
  unfold noLegacyClass
  constructor <;> simp [List.mem_filter]

/-- `readStored` ignores the media-query fields. -/
theorem readStored_sysDark (s : XState) (b : Bool) :
    readStored { s with sysDark := b } = readStored s := by
  simp [readStored, safeLocalStorageGet]

/-- When the stored preference is still `system` or absent, the OS-change
callback re-applies `system` inside a transition window. -/
theorem systemPrefChangeCallback_applies (s : XState)
    (h : readStored s = some "system" ∨ readStored s = none) :
    systemPrefChangeCallback s =
      applyThemeToDOM { s with transitionCount := s.transitionCount + 1 }
        VALID_SYSTEM := by
  unfold systemPrefChangeCallback withTransition
  rcases h with h | h <;> simp [h, VALID_SYSTEM]

/-- When an explicit non-`system` preference is stored, the OS-change
callback does nothing. -/
theorem systemPrefChangeCallback_noop (s : XState)
    (h : ¬(readStored s = some "system" ∨ readStored s = none)) :
    systemPrefChangeCallback s = s := by
  unfold systemPrefChangeCallback
  simp only [VALID_SYSTEM, Bool.or_eq_true, beq_iff_eq]
  rw [if_neg h]

/-- The mode `init` chooses and the spec's stated resolution priority agree
once `system` is resolved against the OS signal. -/
theorem resolve_initChosen_eq_spec (s : XState) :
    resolveEffective s (initChosen s) =
      resolveEffective s (specInitResolution s) := by
  unfold initChosen specInitResolution
  cases hr : readStored s with
  | some v => rfl
  | none =>
    cases ha : s.docAttr with
    | none =>
      show resolveEffective s DEFAULT = resolveEffective s (getSystemPref s)
      rcases getSystemPref_mem s with h | h <;>
        simp [resolveEffective, DEFAULT, VALID_SYSTEM, h]
    | some a =>
      show resolveEffective s (if isValidTheme a = true then a else DEFAULT) =
        resolveEffective s (if isValidTheme a = true then a else getSystemPref s)
      by_cases hv : isValidTheme a = true
      · rw [if_pos hv, if_pos hv]
      · rw [if_neg hv, if_neg hv]
        rcases getSystemPref_mem s with h | h <;>
          simp [resolveEffective, DEFAULT, VALID_SYSTEM, h]

end Lemmas

section Claims

/-- C1: after initialization the Document Attribute holds a valid
EffectiveTheme (`light` or `dark`, never `system`), and every writer —
`init`, `setTheme` (both on valid and on rejected modes), `toggleTheme`,
and the OS-change callback — establishes or preserves this. -/
theorem docAttr_invariant (s : XState) :
    effectiveAttr (init s).state ∧
    (∀ m o, isValidTheme m = true → effectiveAttr (setTheme s m o).1) ∧
    (∀ v o, isValidTheme v = false → effectiveAttr s →
      effectiveAttr (setTheme s v o).1) ∧
    effectiveAttr (toggleTheme s).1 ∧
    (effectiveAttr s → effectiveAttr (systemPrefChangeCallback s)) := by
  refine ⟨?_, ?_, ?_, ?_, ?_⟩
  · exact applyThemeToDOM_effectiveAttr s (initChosen s) (initChosen_valid s)
  · intro m o hm
    rw [setTheme_valid s m o hm]
    unfold effectiveAttr
    rcases resolveEffective_mem s m hm with h | h
    · exact Or.inl (by simp [h])
    · exact Or.inr (by simp [h])
  · intro v o hv hs
    rw [setTheme_invalid_eq s v o hv]
    exact hs
  · rw [toggleTheme_eq]
    rw [setTheme_valid s _ _ (toggleTarget_valid s)]
    unfold effectiveAttr
    rcases resolveEffective_mem s _ (toggleTarget_valid s) with h | h
    · exact Or.inl (by simp [h])
    · exact Or.inr (by simp [h])
  · intro hs
    by_cases hc : readStored s = some "system" ∨ readStored s = none
    · rw [systemPrefChangeCallback_applies s hc]
      exact applyThemeToDOM_effectiveAttr _ _ (by decide)
    · rw [systemPrefChangeCallback_noop s hc]
      exact hs

/-- Witness for C1 at a concrete state. -/
theorem docAttr_invariant_witness :
    effectiveAttr (init demoState).state ∧
    effectiveAttr (setTheme demoState "dark" {}).1 :=
  ⟨(docAttr_invariant demoState).1,
   (docAttr_invariant demoState).2.1 "dark" {} (by decide)⟩

/-- C2: for every valid mode, with storage available, `setTheme m` followed
by `readStored` (the stored-preference query) returns `m`. -/
theorem setTheme_then_readStored (s : XState) (m : String)
    (hm : isValidTheme m = true) (hs : s.storageAvailable = true) :
    readStored (setTheme s m {}).1 = some m := by
  rw [setTheme_valid s m {} hm]
  rcases (isValidTheme_iff m).1 hm with h | h | h <;> subst h <;>
    simp [readStored, safeLocalStorageGet, isValidTheme, hs,
      VALID_LIGHT, VALID_DARK, VALID_SYSTEM]

/-- Witness for C2 at a concrete state. -/
theorem setTheme_then_readStored_witness :
    isValidTheme "system" = true ∧ demoState.storageAvailable = true ∧
    readStored (setTheme demoState "system" {}).1 = some "system" :=
  ⟨by decide, by decide,
   setTheme_then_readStored demoState "system" (by decide) (by decide)⟩

/-- C3: `setTheme` on a value outside the enumeration throws the invalid
argument error to the caller and leaves the whole prior state — stored
preference, document attribute, class list, dispatched events — unchanged. -/
theorem setTheme_invalid_unchanged (s : XState) (v : String)
    (o : SetThemeOptions) (hv : isValidTheme v = false) :
    setTheme s v o = (s, Except.error ("Invalid theme: " ++ v)) :=
  setTheme_invalid_eq s v o hv

/-- Witness for C3 at a concrete state and input. -/
theorem setTheme_invalid_unchanged_witness :
    isValidTheme "blue" = false ∧
    setTheme demoState "blue" {} =
      (demoState, Except.error ("Invalid theme: " ++ "blue")) :=
  ⟨by decide, setTheme_invalid_unchanged demoState "blue" {} (by decide)⟩

/-- C4: `toggleTheme` flips the effective theme read from the Document
Attribute to its opposite, and applying it twice restores the original
effective theme. -/
theorem toggleTheme_involution (s : XState) :
    (getEffectiveTheme (toggleTheme s).1 =
      if getEffectiveTheme s = "dark" then "light" else "dark") ∧
    getEffectiveTheme (toggleTheme (toggleTheme s).1).1 =
      getEffectiveTheme s := by
  have hstep : ∀ u : XState, getEffectiveTheme (toggleTheme u).1 =
      if getEffectiveTheme u = "dark" then "light" else "dark" := by
    intro u
    rw [toggleTheme_eq, setTheme_valid u _ _ (toggleTarget_valid u),
      getEffectiveTheme_eq]
    rcases getEffectiveTheme_mem u with h | h <;>
      simp [h, resolveEffective, VALID_SYSTEM]
  refine ⟨hstep s, ?_⟩
  rw [hstep, hstep]
  rcases getEffectiveTheme_mem s with h | h <;> rw [h] <;> decide

/-- C5: `setTheme` on a valid mode dispatches a change notification whose
detail carries the requested mode together with the applied effective value,
the latter being `light` or `dark`. -/
theorem setTheme_emits (s : XState) (m : String) (o : SetThemeOptions)
    (hm : isValidTheme m = true) :
    ∃ es, (setTheme s m o).1.events = s.events ++ es ∧
      ∃ f, (⟨m, some f, none⟩ : ThemeChangeEvent) ∈ es ∧
        (f = "light" ∨ f = "dark") := by
  rw [setTheme_valid s m o hm]
  refine ⟨[⟨m, some (resolveEffective s m), none⟩] ++
      (if o.noEmit then [] else [⟨m, none, some s.storageAvailable⟩]),
    by simp, resolveEffective s m, by simp, resolveEffective_mem s m hm⟩

/-- Witness for C5 at a concrete state. -/
theorem setTheme_emits_witness :
    isValidTheme "system" = true ∧
    ∃ es, (setTheme demoState "system" {}).1.events = demoState.events ++ es ∧
      ∃ f, (⟨"system", some f, none⟩ : ThemeChangeEvent) ∈ es ∧
        (f = "light" ∨ f = "dark") :=
  ⟨by decide, setTheme_emits demoState "system" {} (by decide)⟩

/-- C6: `init` writes to the Document Attribute exactly the value obtained
by resolving the spec's stated priority chain (stored preference, else valid
root-attribute hint, else the OS signal via the `system` default) against
the OS signal, and opens no transition window. -/
theorem init_matches_spec_resolution (s : XState) :
    (init s).state.docAttr =
      some (resolveEffective s (specInitResolution s)) ∧
    (init s).state.transitionCount = s.transitionCount := by
  constructor
  · show (applyThemeToDOM s (initChosen s)).docAttr = _
    rw [applyThemeToDOM_state, ← resolve_initChosen_eq_spec]
  · show (applyThemeToDOM s (initChosen s)).transitionCount = _
    rw [applyThemeToDOM_state]

/-- C7: with the stored preference `system` (or absent) and the media query
available, an OS-level flip to dark makes the effective theme `dark` with no
call to `setTheme`; and `init` subscribes the watch when the stored
preference is `system`. -/
theorem os_change_updates_effective (s : XState)
    (hstored : readStored s = some "system" ∨ readStored s = none)
    (hmedia : s.mediaAvailable = true) :
    getEffectiveTheme (osPreferenceChange s true) = "dark" ∧
    (readStored s = some "system" → (init s).watching = true) := by
  constructor
  · have hc : readStored { s with sysDark := true } = some "system" ∨
        readStored { s with sysDark := true } = none := by
      rw [readStored_sysDark s true]; exact hstored
    show getEffectiveTheme (systemPrefChangeCallback { s with sysDark := true }) =
      "dark"
    rw [systemPrefChangeCallback_applies _ hc, applyThemeToDOM_state,
      getEffectiveTheme_eq]
    simp [resolveEffective, VALID_SYSTEM, VALID_LIGHT, VALID_DARK,
      getSystemPref, hmedia]
  · intro hsys
    simp [init, hsys, VALID_SYSTEM]

/-- Witness for C7 at a concrete state. -/
theorem os_change_updates_effective_witness :
    (readStored systemStoredState = some "system" ∨
      readStored systemStoredState = none) ∧
    systemStoredState.mediaAvailable = true ∧
    (getEffectiveTheme (osPreferenceChange systemStoredState true) = "dark" ∧
      (readStored systemStoredState = some "system" →
        (init systemStoredState).watching = true)) :=
  ⟨Or.inl (by decide), by decide,
   os_change_updates_effective systemStoredState (Or.inl (by decide))
     (by decide)⟩

/-- C8: with storage unavailable, `setTheme "dark"` still returns normally,
the effective theme becomes `dark` for the session, and the store is left
untouched — the storage failure is never surfaced. -/
theorem setTheme_storage_unavailable (s : XState)
    (hs : s.storageAvailable = false) :
    (setTheme s "dark" {}).2 = Except.ok true ∧
    getEffectiveTheme (setTheme s "dark" {}).1 = "dark" ∧
    (setTheme s "dark" {}).1.storage = s.storage := by
  rw [setTheme_valid s "dark" {} (by decide)]
  refine ⟨rfl, ?_, by simp [hs]⟩
  simp [getEffectiveTheme_eq, resolveEffective, VALID_SYSTEM]

/-- Witness for C8 at a concrete state. -/
theorem setTheme_storage_unavailable_witness :
    privateModeState.storageAvailable = false ∧
    ((setTheme privateModeState "dark" {}).2 = Except.ok true ∧
      getEffectiveTheme (setTheme privateModeState "dark" {}).1 = "dark" ∧
      (setTheme privateModeState "dark" {}).1.storage =
        privateModeState.storage) :=
  ⟨by decide, setTheme_storage_unavailable privateModeState (by decide)⟩

/-- C9: `getEffectiveTheme` is a pure query returning the attribute value
when it is `light` or `dark`, falling back to the OS signal otherwise, and
the OS signal reads `light` whenever the capability is absent. -/
theorem getEffectiveTheme_spec (s : XState) :
    (s.docAttr = some "light" → getEffectiveTheme s = "light") ∧
    (s.docAttr = some "dark" → getEffectiveTheme s = "dark") ∧
    (s.docAttr ≠ some "light" → s.docAttr ≠ some "dark" →
      getEffectiveTheme s = getSystemPref s) ∧
    (s.mediaAvailable = false → getSystemPref s = "light") := by
  refine ⟨?_, ?_, ?_, ?_⟩
  · intro h; simp [getEffectiveTheme_eq, h]
  · intro h; simp [getEffectiveTheme_eq, h]
  · intro h1 h2; simp [getEffectiveTheme_eq, h1, h2]
  · intro h; simp [getSystemPref, h, VALID_LIGHT]

/-- Witness for C9 at concrete states. -/
theorem getEffectiveTheme_spec_witness :
    getEffectiveTheme systemStoredState = "light" ∧
    getSystemPref privateModeState = "light" :=
  ⟨(getEffectiveTheme_spec systemStoredState).1 (by decide),
   (getEffectiveTheme_spec privateModeState).2.2.2 (by decide)⟩

/-- C10: every application of a theme strips the legacy `light`/`dark`
class names, so after `init`, a successful `setTheme`, `toggleTheme`, or an
OS-change re-application, the root element carries neither class. -/
theorem legacy_classes_removed (s : XState) :
    (∀ t, noLegacyClass (applyThemeToDOM s t)) ∧
    noLegacyClass (init s).state ∧
    (∀ m o, isValidTheme m = true → noLegacyClass (setTheme s m o).1) ∧
    noLegacyClass (toggleTheme s).1 ∧
    ((readStored s = some "system" ∨ readStored s = none) →
      noLegacyClass (systemPrefChangeCallback s)) := by
  have hset : ∀ (u : XState) m o, isValidTheme m = true →
      noLegacyClass (setTheme u m o).1 := by
    intro u m o hm
    rw [setTheme_valid u m o hm]
    unfold noLegacyClass
    constructor <;> simp [List.mem_filter]
  refine ⟨fun t => applyThemeToDOM_noLegacy s t,
    applyThemeToDOM_noLegacy s (initChosen s), hset s, ?_, ?_⟩
  · rw [toggleTheme_eq]
    exact hset s _ _ (toggleTarget_valid s)
  · intro h
    rw [systemPrefChangeCallback_applies s h]
    exact applyThemeToDOM_noLegacy _ _

/-- Witness for C10 at a concrete state. -/
theorem legacy_classes_removed_witness :
    noLegacyClass (init demoState).state ∧
    noLegacyClass (setTheme demoState "light" {}).1 :=
  ⟨(legacy_classes_removed demoState).2.1,
   (legacy_classes_removed demoState).2.2.1 "light" {} (by decide)⟩

end Claims

end XSoft
